import Mathlib

/-!
Shallow embedding of the expense-tracker program (`main.py`): the date codec
(`convert_str_to_date`, `convert_date_to_string`), the filter-command loop
(`parse_response`), the query builder (`list_expenses`) and the reporting
reduction (`summarize_spending`), together with theorems settling the claims
about them.

Python strings are modelled as Lean `String`; Python `datetime.date` as the
`PyDate` structure below; the single uncaught exception type that matters
(`ValueError` from `date.fromisoformat`) as `PyErr`.  SQLite stores the
`date` column as the ISO rendering of the bound `datetime.date` (the sqlite3
default adapter), so stored rows carry the ISO string.
-/

deriving instance DecidableEq for Except

/-- Python `ValueError`, the exception `date.fromisoformat` raises on a
malformed or impossible date string.  (`IndexError` is caught inside
`convert_str_to_date` and so never escapes; it needs no constructor.) -/
inductive PyErr where
  | valueError
deriving DecidableEq, Repr

/-- A `datetime.date` value: a year/month/day triple.  Validity
(`PyDate.valid`) mirrors the constructor's checks (year 1–9999, real
Gregorian calendar day). -/
structure PyDate where
  year : Nat
  month : Nat
  day : Nat
deriving DecidableEq, Repr

/-- Gregorian leap-year test, as in CPython's `datetime` module. -/
def isLeap (y : Nat) : Bool :=
  (y % 4 == 0 && y % 100 != 0) || y % 400 == 0

/-- Days in a month, as in CPython's `datetime` module. -/
def daysInMonth (y m : Nat) : Nat :=
  if m = 2 then (if isLeap y then 29 else 28)
  else if m = 4 ∨ m = 6 ∨ m = 9 ∨ m = 11 then 30
  else 31

/-- The range of dates representable by `datetime.date`. -/
def PyDate.valid (d : PyDate) : Bool :=
  decide (1 ≤ d.year ∧ d.year ≤ 9999 ∧ 1 ≤ d.month ∧ d.month ≤ 12 ∧
    1 ≤ d.day ∧ d.day ≤ daysInMonth d.year d.month)

/-- The character for decimal digit `n` (for `n ≤ 9`). -/
def digitChar (n : Nat) : Char := Char.ofNat (48 + n)

/-- Numeric value of a decimal digit character. -/
def charVal (c : Char) : Nat := c.toNat - 48

/-- The two zero-padded decimal digits of `n < 100` (C `%02d`, as used by
`date.__str__`). -/
def padlist2 (n : Nat) : List Char := [digitChar (n / 10), digitChar (n % 10)]

/-- The four zero-padded decimal digits of `n < 10000` (C `%04d`, as used by
`date.__str__`). -/
def padlist4 (n : Nat) : List Char :=
  [digitChar (n / 1000), digitChar (n / 100 % 10), digitChar (n / 10 % 10), digitChar (n % 10)]

/-- `str(d)` for a `datetime.date`: the ISO rendering `YYYY-MM-DD`
(`%04d-%02d-%02d`). -/
def isoformat (d : PyDate) : String :=
  ⟨padlist4 d.year ++ '-' :: padlist2 d.month ++ '-' :: padlist2 d.day⟩

/-- Helper for `pySplit`: accumulate the current field (reversed) while
scanning. -/
def splitCharAux (sep : Char) : List Char → List Char → List (List Char)
  | [], acc => [acc.reverse]
  | c :: cs, acc =>
    if c = sep then acc.reverse :: splitCharAux sep cs []
    else splitCharAux sep cs (c :: acc)

/-- Python `str.split(sep)` for a one-character separator: splits at every
occurrence and keeps empty fields (`"a  b".split(' ') == ['a', '', 'b']`,
`"".split(' ') == ['']`). -/
def pySplit (s : String) (sep : Char) : List String :=
  (splitCharAux sep s.data []).map fun l => ⟨l⟩

/-- Check that `y-m-d` is a representable `datetime.date`; `ValueError`
otherwise — the final step of `date.fromisoformat`. -/
def checkDate (y m d : Nat) : Except PyErr PyDate :=
  if 1 ≤ y ∧ y ≤ 9999 ∧ 1 ≤ m ∧ m ≤ 12 ∧ 1 ≤ d ∧ d ≤ daysInMonth y m then
    .ok ⟨y, m, d⟩
  else .error .valueError

/-- CPython `date.fromisoformat` (3.11+), restricted to the calendar-date
forms `YYYYMMDD` and `YYYY-MM-DD`; every other input raises `ValueError`.
(CPython also accepts ISO week-date forms; those are not reachable from the
digit-and-slash renderings this program exchanges with the codec.) -/
def fromisoformat (s : String) : Except PyErr PyDate :=
  match s.data with
  | [y1, y2, y3, y4, m1, m2, d1, d2] =>
    if y1.isDigit && y2.isDigit && y3.isDigit && y4.isDigit &&
       m1.isDigit && m2.isDigit && d1.isDigit && d2.isDigit then
      checkDate (charVal y1 * 1000 + charVal y2 * 100 + charVal y3 * 10 + charVal y4)
        (charVal m1 * 10 + charVal m2) (charVal d1 * 10 + charVal d2)
    else .error .valueError
  | [y1, y2, y3, y4, h1, m1, m2, h2, d1, d2] =>
    if h1 = '-' ∧ h2 = '-' ∧
       (y1.isDigit && y2.isDigit && y3.isDigit && y4.isDigit &&
        m1.isDigit && m2.isDigit && d1.isDigit && d2.isDigit) = true then
      checkDate (charVal y1 * 1000 + charVal y2 * 100 + charVal y3 * 10 + charVal y4)
        (charVal m1 * 10 + charVal m2) (charVal d1 * 10 + charVal d2)
    else .error .valueError
  | _ => .error .valueError

/-- `convert_str_to_date` from `main.py`: split on `/`, zero-pad the first
two fields to two characters, and hand `arr[2]+arr[0]+arr[1]` to
`date.fromisoformat`.  Only `IndexError` (fewer than 3 fields) is caught and
turned into `None` (`.ok none`); a `ValueError` from `fromisoformat`
propagates (`.error`). -/
def convert_str_to_date (string : String) : Except PyErr (Option PyDate) :=
  match pySplit string '/' with
  | a0 :: a1 :: a2 :: _ =>
    let b0 := if a0.length < 2 then "0" ++ a0 else a0
    let b1 := if a1.length < 2 then "0" ++ a1 else a1
    (fromisoformat (a2 ++ b0 ++ b1)).map some
  | _ => .ok none

/-- `convert_date_to_string` from `main.py`: `arr = str(date1).split('-')`
then `f'{arr[1]}/{arr[2]}/{arr[0]}'`. -/
def convert_date_to_string (date1 : PyDate) : String :=
  let arr := pySplit (isoformat date1) '-'
  (arr.getD 1 "") ++ "/" ++ (arr.getD 2 "") ++ "/" ++ (arr.getD 0 "")

/-- Result of one pass over the body of `parse_response`'s `while True` loop:
success, one of the two re-prompt paths (wrong token count vs a date token
that came back `None`), or an exception escaping the body. -/
inductive OnceResult where
  | success (category : String) (start stop : Option PyDate)
  | malformed
  | badDate
  | raised (e : PyErr)
deriving DecidableEq, Repr

/-- The `end` token step of the loop body: `if len(words) > 2: end =
convert_str_to_date(words[2])`, re-prompting when it is `None`. -/
def parseEnd (category : String) (start : Option PyDate) (rest : List String) : OnceResult :=
  match rest with
  | [] => .success category start none
  | w2 :: _ =>
    match convert_str_to_date w2 with
    | .error e => .raised e
    | .ok none => .badDate
    | .ok (some d) => .success category start (some d)

/-- The loop body after `words = response.split(' ')`: the token-count guard
(`if len(words) > 3 or len(words) < 2`), then the date-token decoding.
Stated by cases on `words` so that each equation is definitional: a list of
fewer than two tokens always fails the count guard, so both shapes land in
the same `.malformed` the guard produces in the source. -/
def parseOnceWords : List String → OnceResult
  | w0 :: w1 :: rest =>
    if (w0 :: w1 :: rest).length > 3 ∨ (w0 :: w1 :: rest).length < 2 then .malformed
    else if w1 ≠ "all" then
      match convert_str_to_date w1 with
      | .error e => .raised e
      | .ok none => .badDate
      | .ok (some d) => parseEnd w0 (some d) rest
    else parseEnd w0 none rest
  | _ => .malformed   -- len(words) < 2

/-- One pass over the body of `parse_response`'s loop: split the (current)
response on single spaces, then run the body. -/
def parseOnce (response : String) : OnceResult :=
  parseOnceWords (pySplit response ' ')

/-- Overall outcome of `parse_response` run against a queue of re-prompt
inputs: a parsed `[category, start, end]`, `None` (the user typed the `4`
sentinel at a re-prompt), an exception, or `outOfInput` — the loop consumed
every queued re-prompt input and is still blocked asking for more. -/
inductive ParseOutcome where
  | ok (category : String) (start stop : Option PyDate)
  | cancelled
  | raised (e : PyErr)
  | outOfInput
deriving DecidableEq, Repr

/-- `parse_response` from `main.py`.  Faithful to the source's loop: the
re-prompt reads `words = input()` and only tests it against `"4"` — it never
reassigns `response` — so each retry re-splits the ORIGINAL `response`
string, consuming one queued input per iteration. -/
def parse_response (response : String) : List String → ParseOutcome
  | [] =>
    match parseOnce response with
    | .success c s e => .ok c s e
    | .raised err => .raised err
    | _ => .outOfInput
  | p :: rest =>
    match parseOnce response with
    | .success c s e => .ok c s e
    | .raised err => .raised err
    | _ => if p = "4" then .cancelled else parse_response response rest

/-- SQLite `LIKE` folds only the 26 ASCII letters. -/
def sqliteLower (c : Char) : Char :=
  if 'A' ≤ c ∧ c ≤ 'Z' then Char.ofNat (c.toNat + 32) else c

/-- SQLite `LIKE` pattern matching (default, no `ESCAPE`): `%` matches any
run of characters (equivalently, the rest of the pattern matches some
suffix), `_` any single character, and ordinary characters compare
ASCII-case-insensitively. -/
def likeMatch : List Char → List Char → Bool
  | [], s => s.isEmpty
  | '%' :: ps, s => s.tails.any fun t => likeMatch ps t
  | '_' :: ps, s =>
    match s with
    | [] => false
    | _ :: s2 => likeMatch ps s2
  | p :: ps, s =>
    match s with
    | [] => false
    | c :: s2 => (sqliteLower p = sqliteLower c) && likeMatch ps s2

/-- Byte-wise string order, as SQLite's default `BINARY` collation compares
text (`memcmp`); on zero-padded ISO dates this is calendar order. -/
def strLe (a b : String) : Bool :=
  go a.data b.data
where
  go : List Char → List Char → Bool
  | [], _ => true
  | _ :: _, [] => false
  | x :: xs, y :: ys =>
    if x.toNat < y.toNat then true
    else if y.toNat < x.toNat then false
    else go xs ys

/-- A row of the `expenses` table.  The `date` column holds the ISO string
the sqlite3 default adapter produces when `add_expense` binds a
`datetime.date`. -/
structure Record where
  id : Int
  amount : Int
  category : String
  desc : String
  date : String
deriving DecidableEq, Repr

/-- A value bound into the SQL parameter list: a text value (dates are bound
as their ISO rendering by the sqlite3 adapter) or SQL `NULL` (Python
`None`). -/
inductive SqlParam where
  | s (v : String)
  | null
deriving DecidableEq, Repr

/-- One conditionally-appended WHERE clause of `list_expenses`, carrying its
bound values. -/
inductive Clause where
  | descLike (pat : String)
  | dateBetween (lo : Option String) (hi : String)
  | dateEq (v : String)
  | catLike (pat : String)
deriving DecidableEq, Repr

/-- The SQL fragment appended to `args` for a clause — a fixed string; the
values travel separately in `params`. -/
def clauseText : Clause → String
  | .descLike _ => "desc LIKE ?"
  | .dateBetween _ _ => "DATE(date) BETWEEN ? AND ?"
  | .dateEq _ => "DATE(date) = ?"
  | .catLike _ => "category LIKE ?"

/-- The values appended to `params` for a clause, in source order. -/
def clauseParams : Clause → List SqlParam
  | .descLike p => [.s p]
  | .dateBetween lo hi => [(match lo with | some l => .s l | none => .null), .s hi]
  | .dateEq v => [.s v]
  | .catLike p => [.s p]

/-- SQLite evaluation of a clause on a row.  `x BETWEEN NULL AND y` is SQL
`NULL`, and a `WHERE` of `NULL` (alone or under `AND`) selects no row, so a
`dateBetween` with a `NULL` lower bound holds for no row.  `DATE(col)` on a
well-formed ISO date string is the identity, which every stored row's `date`
is. -/
def clauseHolds (r : Record) : Clause → Bool
  | .descLike p => likeMatch p.data r.desc.data
  | .dateBetween lo hi =>
    match lo with
    | none => false
    | some l => strLe l r.date && strLe r.date hi
  | .dateEq v => r.date == v
  | .catLike p => likeMatch p.data r.category.data

/-- The `args` list assembled by `list_expenses`, in the source's order:
optional `desc` clause, then the date clause (`BETWEEN` when `end` is set,
else equality when `start` is set), then the category clause unless the
category is the literal `'all'`. -/
def buildArgs (category : String) (start stop : Option PyDate) (desc : Option String) :
    List Clause :=
  (match desc with | some d => [Clause.descLike d] | none => []) ++
  (match stop with
   | some e => [Clause.dateBetween (start.map isoformat) (isoformat e)]
   | none =>
     match start with
     | some s => [Clause.dateEq (isoformat s)]
     | none => []) ++
  (if category ≠ "all" then [Clause.catLike category] else [])

/-- A row satisfies the generated `WHERE` clause iff every appended clause
holds (they are joined with `AND`). -/
def rowMatches (category : String) (start stop : Option PyDate) (desc : Option String)
    (r : Record) : Bool :=
  (buildArgs category start stop desc).all (clauseHolds r)

/-- `ORDER BY date DESC`: row `a` precedes row `b` when `a.date ≥ b.date`
byte-wise. -/
def dateGe (a b : Record) : Prop := strLe b.date a.date = true

instance : DecidableRel dateGe :=
  fun a b => inferInstanceAs (Decidable (strLe b.date a.date = true))

/-- Denotation of `list_expenses` over a store state: the rows satisfying
the generated `WHERE` clause, ordered by `date` descending. -/
def list_expenses (store : List Record) (category : String) (start stop : Option PyDate)
    (desc : Option String) : List Record :=
  List.insertionSort dateGe (store.filter (rowMatches category start stop desc))

/-- The SQL text `list_expenses` assembles: base `SELECT`, a `WHERE`
keyword when any clause is present, each clause followed by `" AND "`, then
`sql[:len(sql)-4]` to trim the trailing `"AND "`, then the `ORDER BY`. -/
def list_expenses_sql (category : String) (start stop : Option PyDate)
    (desc : Option String) : String :=
  let args := (buildArgs category start stop desc).map clauseText
  let sql := "SELECT id, amount, category, desc, date FROM expenses"
  let sql := if args.length ≠ 0 then sql ++ " WHERE " else sql
  let sql := args.foldl (fun acc a => acc ++ a ++ " AND ") sql
  let sql := if args.length ≠ 0 then ⟨sql.data.take (sql.data.length - 4)⟩ else sql
  sql ++ " ORDER BY date DESC"

/-- The bound parameter list `list_expenses` passes alongside the SQL text. -/
def list_expenses_params (category : String) (start stop : Option PyDate)
    (desc : Option String) : List SqlParam :=
  ((buildArgs category start stop desc).map clauseParams).flatten

/-- `summarize_spending` from `main.py`: fold the matched rows' amounts into
a running total and assemble the printed sentence. -/
def summarize_spending (store : List Record) (category : String)
    (start stop : Option PyDate) : Int × String :=
  let rows := list_expenses store category start stop none
  let total := rows.foldl (fun t r => t + r.amount) 0
  let cat := if category ≠ "all" then "the " ++ category ++ " category" else "all categories"
  let daterange :=
    match start with
    | none => ""
    | some s =>
      match stop with
      | none => " on " ++ convert_date_to_string s
      | some e => " from " ++ convert_date_to_string s ++ " to " ++ convert_date_to_string e
  (total, "The total for " ++ cat ++ daterange ++ " is: " ++ toString total)

theorem mk_append (a b : List Char) : (⟨a⟩ : String) ++ ⟨b⟩ = ⟨a ++ b⟩ := rfl

theorem splitCharAux_no_sep (sep : Char) (l : List Char) (acc : List Char) (h : sep ∉ l) :
    splitCharAux sep l acc = [acc.reverse ++ l] := by
  induction l generalizing acc with
  | nil => simp [splitCharAux]
  | cons c cs ih =>
    simp only [List.mem_cons, not_or] at h
    have hc : ¬(c = sep) := fun hh => h.1 hh.symm
    simp [splitCharAux, hc, ih _ h.2]

theorem splitCharAux_sep (sep : Char) (a rest acc : List Char) (h : sep ∉ a) :
    splitCharAux sep (a ++ sep :: rest) acc =
      (acc.reverse ++ a) :: splitCharAux sep rest [] := by
  induction a generalizing acc with
  | nil => simp [splitCharAux]
  | cons c cs ih =>
    simp only [List.mem_cons, not_or] at h
    have hc : ¬(c = sep) := fun hh => h.1 hh.symm
    simp [splitCharAux, hc, ih _ h.2]

theorem pySplit_three (a b c : List Char) (sep : Char)
    (ha : sep ∉ a) (hb : sep ∉ b) (hc : sep ∉ c) :
    pySplit ⟨a ++ sep :: (b ++ sep :: c)⟩ sep = [⟨a⟩, ⟨b⟩, ⟨c⟩] := by
  unfold pySplit
  have hdata : (String.mk (a ++ sep :: (b ++ sep :: c))).data = a ++ sep :: (b ++ sep :: c) := rfl
  rw [hdata, splitCharAux_sep sep a _ [] ha, splitCharAux_sep sep b _ [] hb,
    splitCharAux_no_sep sep c [] hc]
  simp

theorem digitChar_toNat (n : Nat) (h : n ≤ 9) : (digitChar n).toNat = 48 + n := by
  interval_cases n <;> decide

theorem digitChar_isDigit (n : Nat) (h : n ≤ 9) : (digitChar n).isDigit = true := by
  interval_cases n <;> decide

theorem charVal_digitChar (n : Nat) (h : n ≤ 9) : charVal (digitChar n) = n := by
  interval_cases n <;> decide

theorem digitChar_ne_of_lt (k : Nat) (hk : k ≤ 9) (c : Char) (hc : c.toNat < 48) :
    digitChar k ≠ c := by
  intro h
  have hn := digitChar_toNat k hk
  rw [h] at hn
  omega

theorem not_mem_padlist2 (c : Char) (hc : c.toNat < 48) (n : Nat) (h : n ≤ 99) :
    c ∉ padlist2 n := by
  simp only [padlist2, List.mem_cons, List.not_mem_nil, or_false, not_or]
  exact ⟨fun hh => digitChar_ne_of_lt (n / 10) (by omega) c hc hh.symm,
    fun hh => digitChar_ne_of_lt (n % 10) (by omega) c hc hh.symm⟩

theorem not_mem_padlist4 (c : Char) (hc : c.toNat < 48) (n : Nat) (h : n ≤ 9999) :
    c ∉ padlist4 n := by
  simp only [padlist4, List.mem_cons, List.not_mem_nil, or_false, not_or]
  refine ⟨fun hh => digitChar_ne_of_lt (n / 1000) (by omega) c hc hh.symm,
    fun hh => digitChar_ne_of_lt (n / 100 % 10) (by omega) c hc hh.symm,
    fun hh => digitChar_ne_of_lt (n / 10 % 10) (by omega) c hc hh.symm,
    fun hh => digitChar_ne_of_lt (n % 10) (by omega) c hc hh.symm⟩

theorem daysInMonth_le (y m : Nat) : daysInMonth y m ≤ 31 := by
  unfold daysInMonth
  split
  · split <;> omega
  · split <;> omega

theorem fromisoformat_pad (y m d : Nat) (hy1 : 1 ≤ y) (hy : y ≤ 9999)
    (hm1 : 1 ≤ m) (hm : m ≤ 12) (hd1 : 1 ≤ d) (hd : d ≤ daysInMonth y m) :
    fromisoformat ⟨[digitChar (y / 1000), digitChar (y / 100 % 10), digitChar (y / 10 % 10),
      digitChar (y % 10), digitChar (m / 10), digitChar (m % 10), digitChar (d / 10),
      digitChar (d % 10)]⟩ = .ok ⟨y, m, d⟩ := by
  have hdm := daysInMonth_le y m
  have g1 : (digitChar (y / 1000)).isDigit = true := digitChar_isDigit _ (by omega)
  have g2 : (digitChar (y / 100 % 10)).isDigit = true := digitChar_isDigit _ (by omega)
  have g3 : (digitChar (y / 10 % 10)).isDigit = true := digitChar_isDigit _ (by omega)
  have g4 : (digitChar (y % 10)).isDigit = true := digitChar_isDigit _ (by omega)
  have g5 : (digitChar (m / 10)).isDigit = true := digitChar_isDigit _ (by omega)
  have g6 : (digitChar (m % 10)).isDigit = true := digitChar_isDigit _ (by omega)
  have g7 : (digitChar (d / 10)).isDigit = true := digitChar_isDigit _ (by omega)
  have g8 : (digitChar (d % 10)).isDigit = true := digitChar_isDigit _ (by omega)
  have v1 : charVal (digitChar (y / 1000)) = y / 1000 := charVal_digitChar _ (by omega)
  have v2 : charVal (digitChar (y / 100 % 10)) = y / 100 % 10 := charVal_digitChar _ (by omega)
  have v3 : charVal (digitChar (y / 10 % 10)) = y / 10 % 10 := charVal_digitChar _ (by omega)
  have v4 : charVal (digitChar (y % 10)) = y % 10 := charVal_digitChar _ (by omega)
  have v5 : charVal (digitChar (m / 10)) = m / 10 := charVal_digitChar _ (by omega)
  have v6 : charVal (digitChar (m % 10)) = m % 10 := charVal_digitChar _ (by omega)
  have v7 : charVal (digitChar (d / 10)) = d / 10 := charVal_digitChar _ (by omega)
  have v8 : charVal (digitChar (d % 10)) = d % 10 := charVal_digitChar _ (by omega)
  have ey : y / 1000 * 1000 + (y / 100 % 10) * 100 + (y / 10 % 10) * 10 + y % 10 = y := by omega
  have em : m / 10 * 10 + m % 10 = m := by omega
  have ed : d / 10 * 10 + d % 10 = d := by omega
  simp only [fromisoformat, g1, g2, g3, g4, g5, g6, g7, g8, v1, v2, v3, v4, v5, v6, v7, v8,
    Bool.and_self, if_true, ey, em, ed]
  simp only [checkDate]
  rw [if_pos (show 1 ≤ y ∧ y ≤ 9999 ∧ 1 ≤ m ∧ m ≤ 12 ∧ 1 ≤ d ∧ d ≤ daysInMonth y m from
    ⟨hy1, hy, hm1, hm, hd1, hd⟩)]

theorem convert_date_to_string_eq (y m d : Nat) (hy : y ≤ 9999)
    (hm : m ≤ 99) (hd : d ≤ 99) :
    convert_date_to_string ⟨y, m, d⟩ =
      ⟨padlist2 m ++ '/' :: (padlist2 d ++ '/' :: padlist4 y)⟩ := by
  unfold convert_date_to_string isoformat
  simp only [List.append_assoc, List.cons_append]
  rw [pySplit_three (padlist4 y) (padlist2 m) (padlist2 d) '-'
    (not_mem_padlist4 '-' (by decide) _ hy) (not_mem_padlist2 '-' (by decide) _ hm)
    (not_mem_padlist2 '-' (by decide) _ hd)]
  show (⟨padlist2 m⟩ : String) ++ "/" ++ ⟨padlist2 d⟩ ++ "/" ++ ⟨padlist4 y⟩ = _
  rw [show ("/" : String) = ⟨['/']⟩ from rfl, mk_append, mk_append, mk_append, mk_append]
  simp [List.append_assoc]

theorem string_mk_length (l : List Char) : (String.mk l).length = l.length := rfl

/-- Claim C5: round-trip law — for every valid calendar date `d`, parsing the
display rendering returns the same date:
`convert_str_to_date (convert_date_to_string d) = d` (wrapped as
`.ok (some d)`: no exception and no `None`). -/
theorem c5_roundtrip (d : PyDate) (h : d.valid = true) :
    convert_str_to_date (convert_date_to_string d) = .ok (some d) := by
  obtain ⟨y, m, dd⟩ := d
  simp only [PyDate.valid, decide_eq_true_eq] at h
  obtain ⟨hy1, hy, hm1, hm, hd1, hd⟩ := h
  have hdm := daysInMonth_le y m
  rw [convert_date_to_string_eq y m dd hy (by omega) (by omega)]
  unfold convert_str_to_date
  rw [pySplit_three (padlist2 m) (padlist2 dd) (padlist4 y) '/'
    (not_mem_padlist2 '/' (by decide) m (by omega))
    (not_mem_padlist2 '/' (by decide) dd (by omega))
    (not_mem_padlist4 '/' (by decide) y hy)]
  simp only [string_mk_length, padlist2, List.length_cons, List.length_nil]
  norm_num
  rw [mk_append, mk_append]
  simp only [padlist2, padlist4, List.append_assoc, List.cons_append, List.nil_append]
  rw [fromisoformat_pad y m dd hy1 hy hm1 hm hd1 hd]
  rfl

theorem parseEnd_ne_malformed (category : String) (start : Option PyDate)
    (rest : List String) : parseEnd category start rest ≠ .malformed := by
  unfold parseEnd
  split
  · simp
  · split <;> simp

theorem parseEnd_success (category : String) (start : Option PyDate) (rest : List String)
    (c : String) (s e : Option PyDate) (h : parseEnd category start rest = .success c s e) :
    c = category ∧ s = start := by
  unfold parseEnd at h
  split at h
  · injection h with h1 h2 h3
    exact ⟨h1.symm, h2.symm⟩
  · split at h
    · simp at h
    · simp at h
    · injection h with h1 h2 h3
      exact ⟨h1.symm, h2.symm⟩

theorem parse_response_ok (response : String) (prompts : List String)
    (c : String) (s e : Option PyDate)
    (h : parse_response response prompts = .ok c s e) :
    parseOnce response = .success c s e := by
  induction prompts with
  | nil =>
    unfold parse_response at h
    split at h
    · injection h with h1 h2 h3
      subst h1; subst h2; subst h3
      assumption
    · simp at h
    · simp at h
  | cons p rest ih =>
    unfold parse_response at h
    split at h
    · injection h with h1 h2 h3
      subst h1; subst h2; subst h3
      assumption
    · simp at h
    · split at h
      · simp at h
      · exact ih h

theorem parseOnceWords_success_shape (words : List String) (c : String)
    (s e : Option PyDate) (h : parseOnceWords words = .success c s e) :
    s.isSome = true ∨ words.getD 1 "" = "all" := by
  match words with
  | [] => simp [parseOnceWords] at h
  | [w] => simp [parseOnceWords] at h
  | w0 :: w1 :: rest =>
    simp only [parseOnceWords] at h
    split at h
    · simp at h
    · split at h
      · split at h
        · simp at h
        · simp at h
        · left
          obtain ⟨-, hs⟩ := parseEnd_success _ _ _ _ _ _ h
          simp [hs]
      · rename_i hw
        right
        simp at hw
        simp [hw]

theorem parseOnceWords_malformed_iff (words : List String) :
    parseOnceWords words = .malformed ↔ ¬(words.length = 2 ∨ words.length = 3) := by
  constructor
  · intro h hl
    match words with
    | [] => simp at hl
    | [w] => simp at hl
    | w0 :: w1 :: rest =>
      simp only [parseOnceWords] at h
      split at h
      · rename_i hcond
        simp only [List.length_cons] at hcond hl
        omega
      · split at h
        · split at h
          · simp at h
          · simp at h
          · exact parseEnd_ne_malformed _ _ _ h
        · exact parseEnd_ne_malformed _ _ _ h
  · intro h
    match words with
    | [] => rfl
    | [w] => rfl
    | w0 :: w1 :: rest =>
      simp only [parseOnceWords]
      split
      · rfl
      · rename_i hcond
        exfalso
        simp only [List.length_cons] at h hcond
        omega

theorem foldl_amount (l : List Record) (a : Int) :
    l.foldl (fun t r => t + r.amount) a = a + (l.map Record.amount).sum := by
  induction l generalizing a with
  | nil => simp
  | cons r tl ih => simp [ih, add_assoc]

/-- Claim C1 (counterexample): with filter `{category: "food", start:
2025-08-20, end: null}` the query also returns a record whose category is
`"Food"` — `category LIKE ?` compares ASCII-case-insensitively — refuting
the claimed exact, case-sensitive equality. -/
theorem c1_counterexample :
    list_expenses [⟨1, 5, "Food", "x", "2025-08-20"⟩] "food"
      (some ⟨2025, 8, 20⟩) none none = [⟨1, 5, "Food", "x", "2025-08-20"⟩] ∧
    ("Food" : String) ≠ "food" := by decide

/-- Claim C1 (amended): for a filter with category `c ≠ "all"` and a start
date but no end date, a record is returned iff it is stored, its stored ISO
date equals the start date's ISO rendering, and its category matches `c` as
an SQLite `LIKE` pattern (ASCII-case-insensitive, with `%` and `_`
wildcards) — not iff its category is exactly, case-sensitively, equal. -/
theorem c1_like_semantics (store : List Record) (c : String) (s : PyDate) (r : Record)
    (hc : c ≠ "all") :
    r ∈ list_expenses store c (some s) none none ↔
      r ∈ store ∧ r.date = isoformat s ∧ likeMatch c.data r.category.data = true := by
  unfold list_expenses
  rw [(List.perm_insertionSort dateGe _).mem_iff, List.mem_filter]
  simp [rowMatches, buildArgs, hc, clauseHolds, and_assoc]

/-- Witness for `c1_like_semantics` at a one-record store. -/
theorem c1_like_semantics_witness :
    ("food" : String) ≠ "all" ∧
    ((⟨1, 5, "Food", "x", "2025-08-20"⟩ : Record) ∈
        list_expenses [⟨1, 5, "Food", "x", "2025-08-20"⟩] "food"
          (some ⟨2025, 8, 20⟩) none none ↔
      (⟨1, 5, "Food", "x", "2025-08-20"⟩ : Record) ∈
          [(⟨1, 5, "Food", "x", "2025-08-20"⟩ : Record)] ∧
        ("2025-08-20" : String) = isoformat ⟨2025, 8, 20⟩ ∧
        likeMatch "food".data "Food".data = true) :=
  ⟨by decide, c1_like_semantics [⟨1, 5, "Food", "x", "2025-08-20"⟩] "food"
    ⟨2025, 8, 20⟩ ⟨1, 5, "Food", "x", "2025-08-20"⟩ (by decide)⟩

/-- Claim C2 (the code contradicts it): `convert_str_to_date` is claimed
never to throw, returning a failure signal on impossible dates; but on
`"13/01/2025"` (month 13) `date.fromisoformat` raises `ValueError`, which
the `except IndexError` handler does not catch.  Only inputs with fewer
than three `/`-fields produce the `None` failure signal. -/
theorem c2_uncaught_valueerror :
    convert_str_to_date "13/01/2025" = .error .valueError ∧
    convert_str_to_date "1/2" = .ok none := by decide

/-- Claim C3 (counterexample): the input `"food all 8/21/2025"` makes the
parser return a filter with a null start and a non-null end, refuting the
claimed invariant that an end without a start is not constructible. -/
theorem c3_counterexample :
    parse_response "food all 8/21/2025" [] = .ok "food" none (some ⟨2025, 8, 21⟩) := by
  decide

/-- Claim C3 (amended): a parser-produced filter can have a null start with
a non-null end (second token `all`, valid third token); what holds instead
is: whenever the parser returns a filter, the start is non-null or the
second single-space token of the response was the literal `all` — so an end
date without a start arises exactly from the `all` token. -/
theorem c3_start_or_all (response : String) (prompts : List String) (c : String)
    (s e : Option PyDate) (h : parse_response response prompts = .ok c s e)
    (he : e.isSome = true) :
    s.isSome = true ∨ (pySplit response ' ').getD 1 "" = "all" :=
  parseOnceWords_success_shape _ _ _ _ (parse_response_ok response prompts c s e h)

/-- Witness for `c3_start_or_all` at the concrete violating input. -/
theorem c3_start_or_all_witness :
    parse_response "food all 8/21/2025" [] = .ok "food" none (some ⟨2025, 8, 21⟩) ∧
    (some (⟨2025, 8, 21⟩ : PyDate)).isSome = true ∧
    ((none : Option PyDate).isSome = true ∨
      (pySplit "food all 8/21/2025" ' ').getD 1 "" = "all") :=
  ⟨by decide, by decide,
    c3_start_or_all "food all 8/21/2025" [] "food" none (some ⟨2025, 8, 21⟩)
      (by decide) (by decide)⟩

/-- Claim C4 (the code contradicts it): after a malformed command the loop
never re-parses the newly entered text — `words = input()` does not
reassign `response` — so with original input `"onlyone"` and the
well-formed re-prompt input `"food all"` the loop is still stuck asking for
more input, instead of returning the filter `{food, null, null}` that
`"food all"` parses to on its own; only the `"4"` sentinel escapes, as
`Cancelled`. -/
theorem c4_reprompt_ignored :
    parse_response "onlyone" ["food all"] = .outOfInput ∧
    parse_response "food all" [] = .ok "food" none none ∧
    parse_response "onlyone" ["food all", "4"] = .cancelled := by decide

/-- Witness for `c5_roundtrip` at 2025-08-20. -/
theorem c5_roundtrip_witness :
    PyDate.valid ⟨2025, 8, 20⟩ = true ∧
    convert_str_to_date (convert_date_to_string ⟨2025, 8, 20⟩) = .ok (some ⟨2025, 8, 20⟩) :=
  ⟨by decide, c5_roundtrip ⟨2025, 8, 20⟩ (by decide)⟩

/-- Claim C6 (counterexample): tokens are split on single spaces, not on
whitespace — an extra space between two tokens raises the count from 2 to
3, and a tab does not separate at all, making `"a\tb"` (two
whitespace-separated tokens) malformed. -/
theorem c6_counterexample :
    (pySplit "a b" ' ').length = 2 ∧ (pySplit "a  b" ' ').length = 3 ∧
    (pySplit "a\tb" ' ').length = 1 ∧ parseOnce "a\tb" = .malformed := by decide

/-- Claim C6 (amended): the command is split on single space characters
(consecutive spaces insert empty tokens that count; non-space whitespace
does not separate), and the wrong-format signal (`MalformedCommand`) is
raised exactly when that single-space token count is not 2 or 3;
`"a b c d"` and `"onlyone"` are both malformed. -/
theorem c6_malformed_iff :
    (∀ s : String, parseOnce s = .malformed ↔
      ¬((pySplit s ' ').length = 2 ∨ (pySplit s ' ').length = 3)) ∧
    parseOnce "a b c d" = .malformed ∧ parseOnce "onlyone" = .malformed :=
  ⟨fun s => parseOnceWords_malformed_iff (pySplit s ' '), by decide, by decide⟩

/-- Claim C7: the empty filter (`category = "all"`, no dates) applies no
clause: every record matches, the result is a permutation (the
date-descending reordering) of the whole store, and membership in the
result is exactly membership in the store. -/
theorem c7_empty_filter_matches_all (store : List Record) :
    (list_expenses store "all" none none none).Perm store ∧
    ∀ r : Record, rowMatches "all" none none none r = true ∧
      (r ∈ list_expenses store "all" none none none ↔ r ∈ store) := by
  have hmatch : ∀ r : Record, rowMatches "all" none none none r = true := by
    intro r
    simp [rowMatches, buildArgs]
  have hfilter : store.filter (rowMatches "all" none none none) = store :=
    List.filter_eq_self.mpr fun r _ => hmatch r
  have hperm : (list_expenses store "all" none none none).Perm store := by
    unfold list_expenses
    rw [hfilter]
    exact List.perm_insertionSort dateGe store
  exact ⟨hperm, fun r => ⟨hmatch r, hperm.mem_iff⟩⟩

/-- Claim C8: the generated SQL text contains no user-supplied value — it
depends only on the clause shape (whether the category is the `'all'`
wildcard and which of start/end/desc are present); two filters of equal
shape produce identical SQL text, every value travelling only in the bound
parameter list. -/
theorem c8_sql_shape_invariant (c1 c2 : String) (s1 s2 e1 e2 : Option PyDate)
    (d1 d2 : Option String) (hc : (c1 = "all") ↔ (c2 = "all"))
    (hs : s1.isSome = s2.isSome) (he : e1.isSome = e2.isSome)
    (hd : d1.isSome = d2.isSome) :
    list_expenses_sql c1 s1 e1 d1 = list_expenses_sql c2 s2 e2 d2 := by
  by_cases h1 : c1 = "all"
  · have h2 := hc.mp h1
    cases s1 <;> cases s2 <;> cases e1 <;> cases e2 <;> cases d1 <;> cases d2 <;>
      simp_all [list_expenses_sql, buildArgs, clauseText]
  · have h2 : ¬(c2 = "all") := fun hh => h1 (hc.mpr hh)
    cases s1 <;> cases s2 <;> cases e1 <;> cases e2 <;> cases d1 <;> cases d2 <;>
      simp_all [list_expenses_sql, buildArgs, clauseText]

/-- Witness for `c8_sql_shape_invariant`: two same-shape filters with
different category and date values yield identical SQL text. -/
theorem c8_sql_shape_invariant_witness :
    ((("food" : String) = "all") ↔ (("rent" : String) = "all")) ∧
    list_expenses_sql "food" (some ⟨2025, 8, 20⟩) none none =
      list_expenses_sql "rent" (some ⟨1999, 1, 2⟩) none none :=
  ⟨by decide, c8_sql_shape_invariant "food" "rent" (some ⟨2025, 8, 20⟩)
    (some ⟨1999, 1, 2⟩) none none none none (by decide) rfl rfl rfl⟩

/-- Claim C9: `summarize_spending` totals exactly the amounts of the
matched records (an empty match set giving total 0, with no error), and the
printed sentence is "The total for " plus "the <category> category" (or
"all categories" for the `"all"` wildcard) plus the date-range clause —
empty when start is null, " on <start>" when only start is set, " from
<start> to <end>" when both are — with dates rendered by
`convert_date_to_string`. -/
theorem c9_summarize (store : List Record) (category : String)
    (start stop : Option PyDate) :
    (summarize_spending store category start stop).1 =
      ((store.filter (rowMatches category start stop none)).map Record.amount).sum ∧
    (summarize_spending store category start stop).2 =
      "The total for " ++
        (if category ≠ "all" then "the " ++ category ++ " category" else "all categories") ++
        (match start, stop with
         | none, _ => ""
         | some s, none => " on " ++ convert_date_to_string s
         | some s, some e =>
           " from " ++ convert_date_to_string s ++ " to " ++ convert_date_to_string e) ++
        " is: " ++
        toString (((store.filter (rowMatches category start stop none)).map
          Record.amount).sum) := by
  have key : (list_expenses store category start stop none).foldl
      (fun t r => t + r.amount) 0 =
      ((store.filter (rowMatches category start stop none)).map Record.amount).sum := by
    rw [foldl_amount _ 0, zero_add]
    exact (List.Perm.map Record.amount (List.perm_insertionSort dateGe _)).sum_eq
  unfold summarize_spending
  simp only [key]
  cases start <;> cases stop <;> simp

/-- Claim C10 (implicit): with a null start and a non-null end — a shape
the parser produces from `"food all 8/21/2025"` — the `BETWEEN` clause is
bound with a `NULL` lower bound, which no row satisfies, so the query
returns the empty list over every store state. -/
theorem c10_null_start_matches_nothing (store : List Record) (category : String)
    (e : PyDate) :
    list_expenses store category none (some e) none = [] ∧
    parse_response "food all 8/21/2025" [] = .ok "food" none (some ⟨2025, 8, 21⟩) := by
  constructor
  · unfold list_expenses
    have hf : store.filter (rowMatches category none (some e) none) = [] := by
      apply List.filter_eq_nil_iff.mpr
      intro r hr
      simp [rowMatches, buildArgs, clauseHolds]
    rw [hf]
    rfl
  · decide
